import Mathlib

/-
Verification of the convergent-datatype layer of the riak python client
(`src/riak/datatypes/__init__.py`, with `src/riak/datatypes/map.py` and
`src/riak/datatypes/register.py` containing line-identical copies of the
`Map`, `TypedMapView` and `Register` classes).

The embedding translates the python source faithfully, including its
python-level behaviour:

- `Counter._increment`, `Flag._op` and `Register._new_value` are class
  attributes holding immutable values; the mutating methods rebind them with
  plain assignment, which creates a per-instance attribute, so those fields
  behave per-instance and are modelled as fields of a per-instance state.
- `Set._adds`, `Set._removes` and `Map._value`, `Map._adds`, `Map._removes`,
  `Map._updates` are class attributes holding MUTABLE containers, and the
  methods mutate them in place (`self._adds.add(...)`, `self._updates[key] =
  ...`, `del self._updates[key]`).  Python resolves the attribute to the class
  attribute, so every instance of the class shares one container.  The model
  therefore keeps ONE `MapState` for the whole `Map` class: constructing a new
  instance allocates nothing, and a freshly constructed instance reads the
  same state.
- several validators are declared `@classmethod` but take a single parameter
  (`def _check_type(new_value)` instead of `(cls, new_value)`).  A call such
  as `self._check_type(amount)` passes the class as `new_value` plus `amount`
  as an extra positional argument, so python raises `TypeError` before the
  body runs.  Affected: `Datatype._check_type`, `Datatype._coerce_value`,
  `Counter._check_type`, `Flag._check_type`, `Register._check_value`,
  `Set._check_element`, `Set._check_value`, `Set._coerce_value`.
- `Datatype.__init__(self, value=None, context=None)` references the
  undefined name `new_value` whenever `value is not None`, raising
  `NameError` before any validation or coercion, so no instance is ever
  seeded with a base value.
- `Datatype.context` returns `self._context[:]`; when `_context` is `None`
  the slice raises `TypeError`.
- `Map.value` computes `self._value[key].value()`: `value` is a property, so
  its result (an int, bool, str, frozenset or dict) is called as a function,
  raising `TypeError` as soon as `_value` is non-empty.
- a nested `Map()` stored in `_updates` has no per-instance containers, so it
  aliases the class-level state of its parent; `Map.to_op` on such a state
  recurses through the same `_updates` forever and python raises
  `RecursionError`.

Fallible calls are `Except PyError`; mutating methods are state passing,
returning the state reached when the exception propagates.
-/

namespace Riak

/-- Python exceptions raised by the datatypes module. -/
inductive PyError where
  | typeError : String → PyError
  | nameError : String → PyError
  | keyError : PyError
  | attributeError : String → PyError
  | recursionError : PyError
deriving DecidableEq

/-- Per-instance state of `Counter`: `_value` (class default `None`, since
`Counter` does not override `Datatype._value`) and `_increment` (class
default `0`, rebound per instance on mutation). -/
structure CounterState where
  base : Option Int
  inc : Int
deriving DecidableEq

/-- Per-instance state of `Flag`: `_value` (class default `False`) and `_op`
(class default `None`). -/
structure FlagState where
  base : Bool
  op : Option Bool
deriving DecidableEq

/-- Per-instance state of `Register`: `_value` (class default the empty
string) and `_new_value` (class default `None`). -/
structure RegisterState where
  base : String
  newValue : Option String
deriving DecidableEq

/-- State of the `Set` class: `_value` (frozenset, class default empty) and
the class-level shared containers `_adds` and `_removes`.  Python sets are
modelled as duplicate-free lists; `discard` removes the element wherever it
occurs. -/
structure SetState where
  base : List String
  adds : List String
  removes : List String
deriving DecidableEq

/-- The `TYPES` registry keys, in source order:
`counter`, `flag`, `map`, `register`, `set`. -/
def TYPES : List String := [("counter"), ("flag"), ("map"), ("register"), ("set")]

/-- The `Datatype.__init__(self, value=None, context=None)` constructor.  Its
body is `if value is not None: self._raise_if_badtype(new_value)` where
`new_value` is an undefined name, so any call with a non-`None` value raises
`NameError` before validation or coercion run; with `value=None` it only
stores the context.  The result is the pair `(_value, _context)`. -/
def Datatype.init {α : Type} (value : Option α) (context : Option String) :
    Except PyError (Option α × Option String) :=
  match value with
  | some _ => .error (.nameError ("name new_value is not defined"))
  | none => .ok (none, context)

/-- The `Datatype.context` property: `return self._context[:]`.  When
`_context` is `None`, slicing `None` raises `TypeError`; otherwise the slice
returns a copy equal to the stored string. -/
def Datatype.contextProp (ctx : Option String) : Except PyError String :=
  match ctx with
  | none => .error (.typeError ("NoneType object is not subscriptable"))
  | some s => .ok s

/-- A call of `Counter._check_type`, i.e. `self._check_type(amount)` inside
`increment` and `decrement`.  The method is a `@classmethod` whose only
parameter `new_value` receives the class, so the call passes two positional
arguments to a one-parameter function and python raises `TypeError`; the body
`isinstance(new_value, int)` never runs. -/
def Counter.checkTypeCall (_amount : Int) : Except PyError Bool :=
  .error (.typeError ("_check_type() takes 1 positional argument but 2 were given"))

/-- The `Datatype._raise_if_badtype` helper: evaluates the `_check_type` call
and, were it to return `False`, raises `TypeError` with the type error
message. -/
def Datatype.raiseIfBadtype (checkResult : Except PyError Bool) (msg : String) :
    Except PyError Unit :=
  match checkResult with
  | .error e => .error e
  | .ok b => if b then .ok () else .error (.typeError msg)

/-- A freshly constructed `Counter()`: `__init__` runs with `value=None`, so
`_value` keeps the class default `None` and `_increment` is `0`. -/
def Counter.new : CounterState := { base := none, inc := 0 }

/-- The `Counter.increment` method: `self._raise_if_badtype(amount)` then
`self._increment += amount`. -/
def Counter.increment (c : CounterState) (amount : Int) :
    Except PyError Unit × CounterState :=
  match Datatype.raiseIfBadtype (Counter.checkTypeCall amount)
      ("Counters can only be integers") with
  | .error e => (.error e, c)
  | .ok _ => (.ok (), { c with inc := c.inc + amount })

/-- The `Counter.decrement` method: `self._raise_if_badtype(amount)` then
`self._increment -= amount`. -/
def Counter.decrement (c : CounterState) (amount : Int) :
    Except PyError Unit × CounterState :=
  match Datatype.raiseIfBadtype (Counter.checkTypeCall amount)
      ("Counters can only be integers") with
  | .error e => (.error e, c)
  | .ok _ => (.ok (), { c with inc := c.inc - amount })

/-- The `Counter.dirty_value` property: `return self.value + self._increment`.
`self.value` is the raw `_value`; on a fresh counter it is `None`, and
`None + int` raises `TypeError`. -/
def Counter.dirtyValue (c : CounterState) : Except PyError Int :=
  match c.base with
  | none => .error (.typeError ("unsupported operand types for +: NoneType and int"))
  | some v => .ok (v + c.inc)

/-- The `Counter.to_op` method: `if not self._increment == 0: return
self._increment` (implicitly returning `None` otherwise). -/
def Counter.toOp (c : CounterState) : Option Int :=
  if c.inc = 0 then none else some c.inc

/-- The `Flag.to_op` method: `return self._op`. -/
def Flag.toOp (f : FlagState) : Option Bool := f.op

/-- The `Register.to_op` method: `if self._new_value is not None: return
self._new_value`. -/
def Register.toOp (r : RegisterState) : Option String := r.newValue

/-- A call of the register type check inside `Register.assign`.  `Register`
defines `_check_value`, not `_check_type`, so `self._check_type(new_value)`
resolves to the inherited `Datatype._check_type`, a `@classmethod` whose only
parameter receives the class; the two-argument call raises `TypeError`. -/
def Register.checkTypeCall (_v : String) : Except PyError Bool :=
  .error (.typeError ("_check_type() takes 1 positional argument but 2 were given"))

/-- The `Register.assign` method: `self._raise_if_badtype(new_value)` then
`self._new_value = new_value`. -/
def Register.assign (r : RegisterState) (v : String) :
    Except PyError Unit × RegisterState :=
  match Datatype.raiseIfBadtype (Register.checkTypeCall v)
      ("Registers can only be strings") with
  | .error e => (.error e, r)
  | .ok _ => (.ok (), { r with newValue := some v })

/-- A call of `Set._check_element(element)`: a `@classmethod` whose only
parameter `element` receives the class, so the call raises `TypeError` before
the body runs. -/
def Set.checkElementCall (_element : String) : Except PyError Unit :=
  .error (.typeError ("_check_element() takes 1 positional argument but 2 were given"))

/-- The shared class state read by a freshly constructed `Set()`. -/
def Set.classInit : SetState := { base := [], adds := [], removes := [] }

/-- The `Set.add` method: `self._check_element(element)` then
`self._adds.add(element)`. -/
def Set.add (s : SetState) (element : String) : Except PyError Unit × SetState :=
  match Set.checkElementCall element with
  | .error e => (.error e, s)
  | .ok _ =>
    (.ok (), { s with adds := if s.adds.contains element then s.adds
                              else s.adds ++ [element] })

/-- The `Set.discard` method: `self._check_element(element)` then
`self._removes.add(element)`. -/
def Set.discard (s : SetState) (element : String) : Except PyError Unit × SetState :=
  match Set.checkElementCall element with
  | .error e => (.error e, s)
  | .ok _ =>
    (.ok (), { s with removes := if s.removes.contains element then s.removes
                                 else s.removes ++ [element] })

/-- Membership in the `Set.dirty_value` property, which computes
`frozenset((self.value - self._removes) | self._adds)`. -/
def Set.dirtyMem (s : SetState) (e : String) : Bool :=
  (s.base.contains e && !(s.removes.contains e)) || s.adds.contains e

/-- The `Set.to_op` method: `None` when both pending sets are empty,
otherwise a dict with an `adds` key when `_adds` is non-empty and a
`removes` key when `_removes` is non-empty. -/
def Set.toOp (s : SetState) : Option (Option (List String) × Option (List String)) :=
  if s.adds.isEmpty && s.removes.isEmpty then none
  else some ((if s.adds.isEmpty then none else some s.adds),
             (if s.removes.isEmpty then none else some s.removes))

/-- A well-formed `Map` key: the `(name, type-tag)` pair obtained from a raw
key that passed `_check_key`. -/
abbrev MKey := String × String

/-- A raw python key as passed to the `Map` methods: a tuple of strings of
arbitrary arity (only length-2 tuples with a registered tag pass
`_check_key`). -/
abbrev RKey := List String

/-- A nested datatype instance stored in the `Map` dictionaries.  The scalar
types carry per-instance state.  A nested `Map()` carries nothing: it has no
per-instance containers, so every attribute read resolves to the class-level
state shared with its parent (see the header comment). -/
inductive FlatInstance where
  | counter : CounterState → FlatInstance
  | flag : FlagState → FlatInstance
  | register : RegisterState → FlatInstance
  | setdt : SetState → FlatInstance
  | mapInst : FlatInstance
deriving DecidableEq

/-- An entry of the list returned by `Map.to_op`, and the nested operation it
carries for `update` entries. -/
inductive DtOp where
  | counterOp : Int → DtOp
  | flagOp : Bool → DtOp
  | registerOp : String → DtOp
  | setOp : Option (List String) → Option (List String) → DtOp
  | addEntry : MKey → DtOp
  | removeEntry : MKey → DtOp
  | updateEntry : MKey → DtOp → DtOp
deriving DecidableEq

/-- State of the `Map` class: `_value`, `_adds`, `_removes`, `_updates`.  All
four are class attributes holding mutable containers, so all `Map` instances
(including nested ones) share this one state. -/
structure MapState where
  value : List (MKey × FlatInstance)
  adds : List MKey
  removes : List MKey
  updates : List (MKey × FlatInstance)
deriving DecidableEq

/-- The shared class state read by a freshly constructed `Map()`. -/
def Map.classInit : MapState := { value := [], adds := [], removes := [], updates := [] }

/-- Dictionary lookup over the association-list model of a python dict. -/
def assocFind (l : List (MKey × FlatInstance)) (k : MKey) : Option FlatInstance :=
  match l with
  | [] => none
  | (k2, v) :: rest => if k2 = k then some v else assocFind rest k

/-- Dictionary assignment `d[k] = v`: replace the binding if present,
otherwise append it. -/
def assocSet (l : List (MKey × FlatInstance)) (k : MKey) (v : FlatInstance) :
    List (MKey × FlatInstance) :=
  match l with
  | [] => [(k, v)]
  | (k2, v2) :: rest =>
      if k2 = k then (k, v) :: rest else (k2, v2) :: assocSet rest k v

/-- Dictionary deletion `del d[k]` on the association list (the binding is
unique in every state built by the operations, so removing every binding of
the key models the python deletion). -/
def assocErase (l : List (MKey × FlatInstance)) (k : MKey) :
    List (MKey × FlatInstance) :=
  match l with
  | [] => []
  | (k2, v) :: rest =>
      if k2 = k then assocErase rest k else (k2, v) :: assocErase rest k

/-- Python `set.add` on the list model: insert the key if not present. -/
def keyInsert (l : List MKey) (k : MKey) : List MKey :=
  if l.contains k then l else l ++ [k]

/-- Python `set.discard` on the list model: remove the key wherever it
occurs. -/
def keyDiscard (l : List MKey) (k : MKey) : List MKey :=
  match l with
  | [] => []
  | k2 :: rest => if k2 = k then keyDiscard rest k else k2 :: keyDiscard rest k

/-- The `Map._check_key` method.  `if not len(key) == 2: raise TypeError`;
otherwise, when the tag is unknown the code evaluates `'invalid datatype:
%s'. key[1]`, an attribute access of `key` on the format string, raising
`AttributeError` before the intended `TypeError`.  On success the raw key is
returned as the `(name, tag)` pair. -/
def Map.checkKey (key : RKey) : Except PyError MKey :=
  if h : key.length = 2 then
    let name := key.get ⟨0, by omega⟩
    let tag := key.get ⟨1, by omega⟩
    if TYPES.contains tag then .ok (name, tag)
    else .error (.attributeError ("str object has no attribute key"))
  else .error (.typeError ("invalid key"))

/-- The constructor call `TYPES[key[1]]()` inside `Map.add`: every type built
with no arguments keeps its class defaults (`Counter._value` is `None`; a
nested `Map()` aliases the shared class containers). -/
def freshInstance : String → FlatInstance
  | "counter" => .counter { base := none, inc := 0 }
  | "flag" => .flag { base := false, op := none }
  | "register" => .register { base := "", newValue := none }
  | "set" => .setdt { base := [], adds := [], removes := [] }
  | _ => .mapInst

/-- One step of the loop in the `Map.value` property, `pvalue[key] =
self._value[key].value()`.  The attribute `value` is a property, so the
expression calls the propertys result — an `int`, `bool`, `str`, `frozenset`
or `dict`, none of which is callable (a nested `Map().value` first returns
the dict built from the shared empty `_value`) — raising `TypeError` for
every nested instance. -/
def FlatInstance.valueCalled (_i : FlatInstance) : Except PyError Unit :=
  .error (.typeError ("object is not callable"))

/-- The `Map.value` property: iterates `self._value` building `pvalue[key] =
self._value[key].value()`; the first iteration raises (see
`FlatInstance.valueCalled`), so the property returns the key list only when
`_value` is empty. -/
def Map.valueProp : List (MKey × FlatInstance) → Except PyError (List MKey)
  | [] => .ok []
  | (k, i) :: rest =>
    match FlatInstance.valueCalled i with
    | .error e => .error e
    | .ok _ =>
      match Map.valueProp rest with
      | .error e => .error e
      | .ok ks => .ok (k :: ks)

/-- The `Map.add` method: `self._check_key(key)`; `if not key in self.value`
(the `value` property) `self._updates[key] = TYPES[key[1]]()`; then
`self._removes.discard(key)` and `self._adds.add(key)`. -/
def Map.add (s : MapState) (key : RKey) : Except PyError Unit × MapState :=
  match Map.checkKey key with
  | .error e => (.error e, s)
  | .ok k =>
    match Map.valueProp s.value with
    | .error e => (.error e, s)
    | .ok pv =>
      let s1 := if pv.contains k then s
                else { s with updates := assocSet s.updates k (freshInstance k.2) }
      let s2 := { s1 with removes := keyDiscard s1.removes k }
      (.ok (), { s2 with adds := keyInsert s2.adds k })

/-- The `Map.__getitem__` method: `self._check_key(key)`;
`self._removes.discard(key)`; if the key is in the raw `_value` dict return
that instance, otherwise `self.add(key)` and return `self._updates[key]`
(raising `KeyError` if the dict subscript misses). -/
def Map.getItem (s : MapState) (key : RKey) :
    Except PyError FlatInstance × MapState :=
  match Map.checkKey key with
  | .error e => (.error e, s)
  | .ok k =>
    let s1 := { s with removes := keyDiscard s.removes k }
    match assocFind s1.value k with
    | some inst => (.ok inst, s1)
    | none =>
      match Map.add s1 key with
      | (.error e, s2) => (.error e, s2)
      | (.ok _, s2) =>
        match assocFind s2.updates k with
        | some inst => (.ok inst, s2)
        | none => (.error .keyError, s2)

/-- The `Map.__delitem__` method: `self._check_key(key)`;
`self._adds.discard(key)`; `del self._updates[key]` — an unconditional dict
deletion that raises `KeyError` when the key has no pending update, after the
discard already ran; then `self._removes.add(key)`. -/
def Map.delItem (s : MapState) (key : RKey) : Except PyError Unit × MapState :=
  match Map.checkKey key with
  | .error e => (.error e, s)
  | .ok k =>
    let s1 := { s with adds := keyDiscard s.adds k }
    match assocFind s1.updates k with
    | none => (.error .keyError, s1)
    | some _ =>
      let s2 := { s1 with updates := assocErase s1.updates k }
      (.ok (), { s2 with removes := keyInsert s2.removes k })

/-- The `to_op` call on a nested instance inside `Map._extract_updates`.
`to_op` is a real method (not a property), so the call is well-formed for the
scalar types.  On a nested `Map()` the method reads the same shared
`_updates` that contains the instance itself and recurses without bound;
python raises `RecursionError`. -/
def FlatInstance.toOp : FlatInstance → Except PyError (Option DtOp)
  | .counter c => .ok ((Counter.toOp c).map DtOp.counterOp)
  | .flag f => .ok ((Flag.toOp f).map DtOp.flagOp)
  | .register r => .ok ((Register.toOp r).map DtOp.registerOp)
  | .setdt s => .ok ((Set.toOp s).map (fun p => DtOp.setOp p.1 p.2))
  | .mapInst => .error .recursionError

/-- The `Map._extract_updates` generator, consumed eagerly by `list(...)`:
for each binding whose nested `to_op()` is not `None`, yield an
`('update', key, op)` entry. -/
def Map.extractUpdates : List (MKey × FlatInstance) → Except PyError (List DtOp)
  | [] => .ok []
  | (k, i) :: rest =>
    match FlatInstance.toOp i with
    | .error e => .error e
    | .ok op =>
      match Map.extractUpdates rest with
      | .error e => .error e
      | .ok ops =>
        match op with
        | some o => .ok (DtOp.updateEntry k o :: ops)
        | none => .ok ops

/-- The `Map.to_op` method: the concatenation of `add` entries from `_adds`,
`remove` entries from `_removes`, update entries extracted from `_value`,
and update entries extracted from `_updates`; `None` when the concatenation
is empty. -/
def Map.toOp (s : MapState) : Except PyError (Option (List DtOp)) :=
  match Map.extractUpdates s.value with
  | .error e => .error e
  | .ok valueU =>
    match Map.extractUpdates s.updates with
    | .error e => .error e
    | .ok newU =>
      let allU := s.adds.map DtOp.addEntry ++ s.removes.map DtOp.removeEntry
                    ++ valueU ++ newU
      if allU.isEmpty then .ok none else .ok (some allU)

/-- One pass of the loop in `TypedMapView.__iter__`: for each key of the
parent maps pure value whose tag equals the views tag, yield
`self.map[key]` — a call of `Map.__getitem__`, threading its state change. -/
def TypedMapView.iterLoop (tag : String) :
    MapState → List MKey → Except PyError (List FlatInstance) × MapState
  | s, [] => (.ok [], s)
  | s, k :: rest =>
    if k.2 = tag then
      match Map.getItem s [k.1, k.2] with
      | (.error e, s1) => (.error e, s1)
      | (.ok inst, s1) =>
        match TypedMapView.iterLoop tag s1 rest with
        | (.error e, s2) => (.error e, s2)
        | (.ok insts, s2) => (.ok (inst :: insts), s2)
    else TypedMapView.iterLoop tag s rest

/-- The `TypedMapView.__iter__` method: `for key in self.map.value:` first
evaluates the parent maps `value` property (which raises `TypeError` as soon
as the base value is non-empty), then filters keys by the views tag and
yields `self.map[key]` for each match. -/
def TypedMapView.iter (s : MapState) (tag : String) :
    Except PyError (List FlatInstance) × MapState :=
  match Map.valueProp s.value with
  | .error e => (.error e, s)
  | .ok keys => TypedMapView.iterLoop tag s keys

/-- Invariant of the reachable `Map` class states: the base value dict is
empty (seeding a base value always raises `NameError` inside
`Datatype.__init__`, see `Datatype.init`), and every key in `_adds` has a
binding in `_updates` (`Map.add` stores a fresh instance in `_updates`
before recording the key in `_adds`, and `Map.__delitem__` removes the key
from both). -/
def MapInv (s : MapState) : Prop :=
  s.value = [] ∧ ∀ k ∈ s.adds, (assocFind s.updates k).isSome = true

/-- Scenario B of the specification, first step: a fresh `Map` is read
through the registers typed view, `map.registers[name]`, which delegates to
`Map.__getitem__` with the qualified key.  This is the map state after the
access. -/
def scenarioBState : MapState :=
  (Map.getItem Map.classInit [("name"), ("register")]).2

/-- Scenario B, the nested instance returned by the access. -/
def scenarioBRegister : Except PyError FlatInstance :=
  (Map.getItem Map.classInit [("name"), ("register")]).1

/-- Scenario B, second step: `assign("Ann")` on the returned fresh
register. -/
def scenarioBAssign : Except PyError Unit × RegisterState :=
  Register.assign { base := "", newValue := none } ("Ann")

/-- Scenario A attempt, first step: `increment(5)` on a fresh counter. -/
def c5AfterIncrement : Except PyError Unit × CounterState :=
  Counter.increment Counter.new 5

/-- Scenario A attempt, second step: `decrement(2)` on the state left by the
first step. -/
def c5AfterSequence : Except PyError Unit × CounterState :=
  Counter.decrement c5AfterIncrement.2 2

/-- The P7 sequence attempt on a fresh set: `add("e")`. -/
def c6Step1 : Except PyError Unit × SetState := Set.add Set.classInit ("e")

/-- The P7 sequence attempt, second step: `discard("e")`. -/
def c6Step2 : Except PyError Unit × SetState := Set.discard c6Step1.2 ("e")

/-- The P7 sequence attempt, third step: `add("e")` again. -/
def c6Step3 : Except PyError Unit × SetState := Set.add c6Step2.2 ("e")

/-- A hypothetical `Map` class state with a counter in the base value and a
pending remove for it, as the typed-view iteration claim requires.  No run
of the program reaches such a state: seeding a base value raises `NameError`
(see `Datatype.init`). -/
def c10BaseState : MapState :=
  { value := [((("a"), ("counter")), .counter { base := some 5, inc := 0 })],
    adds := [], removes := [(("a"), ("counter"))], updates := [] }

/-- The `Counter.to_op` method in state-passing form.  Its body reads
`self._increment` and assigns no attribute, so the state is returned
unchanged. -/
def Counter.toOpS (c : CounterState) : Option Int × CounterState :=
  (Counter.toOp c, c)

/-- The `Flag.to_op` method in state-passing form: `return self._op` assigns
nothing. -/
def Flag.toOpS (f : FlagState) : Option Bool × FlagState := (Flag.toOp f, f)

/-- The `Register.to_op` method in state-passing form: it reads
`self._new_value` and assigns nothing. -/
def Register.toOpS (r : RegisterState) : Option String × RegisterState :=
  (Register.toOp r, r)

/-- The `Set.to_op` method in state-passing form: it reads `self._adds` and
`self._removes`, builds fresh lists, and assigns nothing. -/
def Set.toOpS (s : SetState) :
    Option (Option (List String) × Option (List String)) × SetState :=
  (Set.toOp s, s)

/-- The `Map.to_op` method in state-passing form: it reads the four
containers, builds fresh lists (`_extract_updates` calls the nested
`to_op` methods, which also assign nothing), and mutates no state. -/
def Map.toOpS (s : MapState) : Except PyError (Option (List DtOp)) × MapState :=
  (Map.toOp s, s)

end Riak

namespace Riak

theorem assocFind_assocSet_self (l : List (MKey × FlatInstance)) (k : MKey)
    (v : FlatInstance) : assocFind (assocSet l k v) k = some v := by
  induction l with
  | nil => simp [assocSet, assocFind]
  | cons hd t ih =>
    obtain ⟨k2, v2⟩ := hd
    by_cases hk : k2 = k
    · simp [assocSet, hk, assocFind]
    · simp [assocSet, hk, assocFind, ih]

theorem assocFind_assocSet_ne (l : List (MKey × FlatInstance)) (k k2 : MKey)
    (v : FlatInstance) (h : k2 ≠ k) :
    assocFind (assocSet l k v) k2 = assocFind l k2 := by
  induction l with
  | nil =>
    simp only [assocSet, assocFind]
    rw [if_neg (fun hh => h hh.symm)]
  | cons hd t ih =>
    obtain ⟨k1, v1⟩ := hd
    by_cases hk : k1 = k
    · subst hk
      simp only [assocSet, if_pos rfl, assocFind]
      rw [if_neg (fun hh => h hh.symm), if_neg (fun hh => h hh.symm)]
    · simp only [assocSet, if_neg hk, assocFind]
      by_cases hk2 : k1 = k2
      · rw [if_pos hk2, if_pos hk2]
      · rw [if_neg hk2, if_neg hk2, ih]

theorem assocFind_assocErase_ne (l : List (MKey × FlatInstance)) (k k2 : MKey)
    (h : k2 ≠ k) : assocFind (assocErase l k) k2 = assocFind l k2 := by
  induction l with
  | nil => rfl
  | cons hd t ih =>
    obtain ⟨k1, v1⟩ := hd
    show assocFind (if k1 = k then assocErase t k else (k1, v1) :: assocErase t k) k2
        = if k1 = k2 then some v1 else assocFind t k2
    by_cases hk : k1 = k
    · rw [if_pos hk, if_neg (fun h2 : k1 = k2 => h (h2.symm.trans hk))]
      exact ih
    · rw [if_neg hk]
      show (if k1 = k2 then some v1 else assocFind (assocErase t k) k2)
          = if k1 = k2 then some v1 else assocFind t k2
      by_cases hk2 : k1 = k2
      · rw [if_pos hk2, if_pos hk2]
      · rw [if_neg hk2, if_neg hk2]
        exact ih

theorem mem_keyInsert {l : List MKey} {k k2 : MKey} (h : k2 ∈ keyInsert l k) :
    k2 ∈ l ∨ k2 = k := by
  unfold keyInsert at h
  by_cases hc : l.contains k
  · rw [if_pos hc] at h
    exact Or.inl h
  · rw [if_neg hc] at h
    rcases List.mem_append.mp h with h1 | h1
    · exact Or.inl h1
    · exact Or.inr (List.mem_singleton.mp h1)

theorem mem_keyDiscard {l : List MKey} {k k2 : MKey} (h : k2 ∈ keyDiscard l k) :
    k2 ∈ l ∧ k2 ≠ k := by
  induction l with
  | nil => cases h
  | cons hd t ih =>
    by_cases hk : hd = k
    · rw [keyDiscard, if_pos hk] at h
      exact ⟨List.mem_cons_of_mem hd (ih h).1, (ih h).2⟩
    · rw [keyDiscard, if_neg hk] at h
      rcases List.mem_cons.mp h with h1 | h1
      · exact ⟨by rw [h1]; exact List.mem_cons_self hd t, by rw [h1]; exact hk⟩
      · exact ⟨List.mem_cons_of_mem hd (ih h1).1, (ih h1).2⟩

theorem keyDiscard_of_not_mem {l : List MKey} {k : MKey} (h : k ∉ l) :
    keyDiscard l k = l := by
  induction l with
  | nil => rfl
  | cons hd t ih =>
    show (if hd = k then keyDiscard t k else hd :: keyDiscard t k) = hd :: t
    rw [if_neg (fun hh : hd = k => h (by rw [← hh]; exact List.mem_cons_self hd t)),
      ih (fun hm => h (List.mem_cons_of_mem hd hm))]

theorem map_add_badkey (s : MapState) (key : RKey) (e : PyError)
    (hck : Map.checkKey key = .error e) : Map.add s key = (.error e, s) := by
  simp only [Map.add, hck]

theorem map_add_eq (s : MapState) (key : RKey) (k : MKey)
    (hck : Map.checkKey key = .ok k) (hv : s.value = []) :
    Map.add s key =
      (.ok (), { value := s.value, adds := keyInsert s.adds k,
                 removes := keyDiscard s.removes k,
                 updates := assocSet s.updates k (freshInstance k.2) }) := by
  simp only [Map.add, hck, hv, Map.valueProp, List.contains_nil, Bool.false_eq_true,
    if_false]

theorem map_getItem_badkey (s : MapState) (key : RKey) (e : PyError)
    (hck : Map.checkKey key = .error e) : Map.getItem s key = (.error e, s) := by
  simp only [Map.getItem, hck]

theorem map_getItem_eq (s : MapState) (key : RKey) (k : MKey)
    (hck : Map.checkKey key = .ok k) (hv : s.value = []) :
    Map.getItem s key =
      (.ok (freshInstance k.2),
       { value := s.value, adds := keyInsert s.adds k,
         removes := keyDiscard (keyDiscard s.removes k) k,
         updates := assocSet s.updates k (freshInstance k.2) }) := by
  have h1 := map_add_eq
      { value := [], adds := s.adds, removes := keyDiscard s.removes k,
        updates := s.updates } key k hck rfl
  dsimp only at h1
  simp only [Map.getItem, hck, hv, assocFind, h1, assocFind_assocSet_self]

theorem map_delItem_badkey (s : MapState) (key : RKey) (e : PyError)
    (hck : Map.checkKey key = .error e) : Map.delItem s key = (.error e, s) := by
  simp only [Map.delItem, hck]

theorem map_delItem_miss (s : MapState) (key : RKey) (k : MKey)
    (hck : Map.checkKey key = .ok k) (hu : assocFind s.updates k = none) :
    Map.delItem s key = (.error .keyError, { s with adds := keyDiscard s.adds k }) := by
  simp only [Map.delItem, hck, hu]

theorem map_delItem_hit (s : MapState) (key : RKey) (k : MKey) (i : FlatInstance)
    (hck : Map.checkKey key = .ok k) (hu : assocFind s.updates k = some i) :
    Map.delItem s key =
      (.ok (), { value := s.value, adds := keyDiscard s.adds k,
                 removes := keyInsert s.removes k,
                 updates := assocErase s.updates k }) := by
  simp only [Map.delItem, hck, hu]

theorem mapInv_classInit : MapInv Map.classInit := by
  refine ⟨rfl, ?_⟩
  intro k hk
  cases hk

theorem mapInv_add (s : MapState) (key : RKey) (h : MapInv s) :
    MapInv (Map.add s key).2 := by
  obtain ⟨hv, ha⟩ := h
  rcases hck : Map.checkKey key with e | k
  · rw [map_add_badkey s key e hck]
    exact ⟨hv, ha⟩
  · rw [map_add_eq s key k hck hv]
    refine ⟨hv, ?_⟩
    intro k2 hk2
    rcases mem_keyInsert hk2 with hmem | heq
    · by_cases hkk : k2 = k
      · subst hkk
        rw [assocFind_assocSet_self]
        rfl
      · rw [assocFind_assocSet_ne s.updates k k2 _ hkk]
        exact ha k2 hmem
    · subst heq
      rw [assocFind_assocSet_self]
      rfl

theorem mapInv_getItem (s : MapState) (key : RKey) (h : MapInv s) :
    MapInv (Map.getItem s key).2 := by
  obtain ⟨hv, ha⟩ := h
  rcases hck : Map.checkKey key with e | k
  · rw [map_getItem_badkey s key e hck]
    exact ⟨hv, ha⟩
  · rw [map_getItem_eq s key k hck hv]
    refine ⟨hv, ?_⟩
    intro k2 hk2
    rcases mem_keyInsert hk2 with hmem | heq
    · by_cases hkk : k2 = k
      · subst hkk
        rw [assocFind_assocSet_self]
        rfl
      · rw [assocFind_assocSet_ne s.updates k k2 _ hkk]
        exact ha k2 hmem
    · subst heq
      rw [assocFind_assocSet_self]
      rfl

theorem mapInv_delItem (s : MapState) (key : RKey) (h : MapInv s) :
    MapInv (Map.delItem s key).2 := by
  obtain ⟨hv, ha⟩ := h
  rcases hck : Map.checkKey key with e | k
  · rw [map_delItem_badkey s key e hck]
    exact ⟨hv, ha⟩
  · rcases hu : assocFind s.updates k with _ | i
    · rw [map_delItem_miss s key k hck hu]
      refine ⟨hv, ?_⟩
      intro k2 hk2
      exact ha k2 (mem_keyDiscard hk2).1
    · rw [map_delItem_hit s key k i hck hu]
      refine ⟨hv, ?_⟩
      intro k2 hk2
      obtain ⟨hmem, hne⟩ := mem_keyDiscard hk2
      rw [assocFind_assocErase_ne s.updates k k2 hne]
      exact ha k2 hmem

/-- Claim C1.  The claim states that a freshly constructed instance on which
no mutation method was called always has `to_op() == None`, regardless of
mutations on other, distinct instances.  The code violates it: `Map._adds`,
`Map._removes` and `Map._updates` are class attributes mutated in place, so
all `Map` instances share one state (`MapState`); after another instance runs
`add(("a", "counter"))`, a freshly constructed `Map()` — which allocates no
per-instance containers and reads the same class state — reports the foreign
mutation from `to_op()`. -/
theorem c1_fresh_map_toOp_leaks_across_instances :
    Map.toOp Map.classInit = .ok none ∧
    (Map.add Map.classInit [("a"), ("counter")]).1 = .ok () ∧
    Map.toOp (Map.add Map.classInit [("a"), ("counter")]).2 =
      .ok (some [DtOp.addEntry (("a"), ("counter"))]) ∧
    Map.toOp (Map.add Map.classInit [("a"), ("counter")]).2 ≠ .ok none := by
  refine ⟨rfl, rfl, rfl, ?_⟩
  intro h
  exact Option.noConfusion (Except.ok.inj h)

/-- Claim C2.  Every public mutation call that fails leaves the mutation
state exactly as it was.  Over the reachable `Map` class states (`MapInv`:
the base value is empty because seeding raises `NameError`, and `_adds` is
covered by `_updates`), `Map.__delitem__` either completes fully — the key
leaves `_adds` and `_updates` and enters `_removes` — or raises with the
state unchanged; `Map.add` and `Map.__getitem__` fail only on key validation
with the state unchanged; and the always-failing type checks of
`Counter.increment`, `Counter.decrement`, `Register.assign`, `Set.add` and
`Set.discard` raise before any assignment. -/
theorem c2_failed_mutation_leaves_state_unchanged (s : MapState) (key : RKey)
    (hInv : MapInv s) :
    (∀ e s2, Map.delItem s key = (.error e, s2) → s2 = s) ∧
    (∀ s2, Map.delItem s key = (.ok (), s2) →
      ∃ k, Map.checkKey key = .ok k ∧
        s2 = { value := s.value, adds := keyDiscard s.adds k,
               removes := keyInsert s.removes k,
               updates := assocErase s.updates k }) ∧
    (∀ e s2, Map.add s key = (.error e, s2) → s2 = s) ∧
    (∀ e s2, Map.getItem s key = (.error e, s2) → s2 = s) ∧
    (∀ (c : CounterState) (a : Int) e c2,
        Counter.increment c a = (.error e, c2) → c2 = c) ∧
    (∀ (c : CounterState) (a : Int) e c2,
        Counter.decrement c a = (.error e, c2) → c2 = c) ∧
    (∀ (r : RegisterState) (v : String) e r2,
        Register.assign r v = (.error e, r2) → r2 = r) ∧
    (∀ (st : SetState) (x : String) e st2, Set.add st x = (.error e, st2) → st2 = st) ∧
    (∀ (st : SetState) (x : String) e st2,
        Set.discard st x = (.error e, st2) → st2 = st) := by
  obtain ⟨hv, ha⟩ := hInv
  refine ⟨?_, ?_, ?_, ?_, ?_, ?_, ?_, ?_, ?_⟩
  · intro e s2 hdel
    rcases hck : Map.checkKey key with e1 | k
    · rw [map_delItem_badkey s key e1 hck] at hdel
      exact (Prod.mk.injEq _ _ _ _ ▸ hdel).2.symm
    · rcases hu : assocFind s.updates k with _ | i
      · rw [map_delItem_miss s key k hck hu] at hdel
        have hnot : k ∉ s.adds := by
          intro hmem
          have hs := ha k hmem
          rw [hu] at hs
          cases hs
        have h2 := (Prod.mk.injEq _ _ _ _ ▸ hdel).2
        rw [← h2, keyDiscard_of_not_mem hnot]
      · rw [map_delItem_hit s key k i hck hu] at hdel
        exact absurd (Prod.mk.injEq _ _ _ _ ▸ hdel).1 (fun hh => Except.noConfusion hh)
  · intro s2 hdel
    rcases hck : Map.checkKey key with e1 | k
    · rw [map_delItem_badkey s key e1 hck] at hdel
      exact absurd (Prod.mk.injEq _ _ _ _ ▸ hdel).1 (fun hh => Except.noConfusion hh)
    · rcases hu : assocFind s.updates k with _ | i
      · rw [map_delItem_miss s key k hck hu] at hdel
        exact absurd (Prod.mk.injEq _ _ _ _ ▸ hdel).1 (fun hh => Except.noConfusion hh)
      · rw [map_delItem_hit s key k i hck hu] at hdel
        exact ⟨k, rfl, (Prod.mk.injEq _ _ _ _ ▸ hdel).2.symm⟩
  · intro e s2 hadd
    rcases hck : Map.checkKey key with e1 | k
    · rw [map_add_badkey s key e1 hck] at hadd
      exact (Prod.mk.injEq _ _ _ _ ▸ hadd).2.symm
    · rw [map_add_eq s key k hck hv] at hadd
      exact absurd (Prod.mk.injEq _ _ _ _ ▸ hadd).1 (fun hh => Except.noConfusion hh)
  · intro e s2 hget
    rcases hck : Map.checkKey key with e1 | k
    · rw [map_getItem_badkey s key e1 hck] at hget
      exact (Prod.mk.injEq _ _ _ _ ▸ hget).2.symm
    · rw [map_getItem_eq s key k hck hv] at hget
      exact absurd (Prod.mk.injEq _ _ _ _ ▸ hget).1 (fun hh => Except.noConfusion hh)
  · intro c a e c2 hc
    exact (Prod.mk.injEq _ _ _ _ ▸ hc).2.symm
  · intro c a e c2 hc
    exact (Prod.mk.injEq _ _ _ _ ▸ hc).2.symm
  · intro r v e r2 hr
    exact (Prod.mk.injEq _ _ _ _ ▸ hr).2.symm
  · intro st x e st2 hs
    exact (Prod.mk.injEq _ _ _ _ ▸ hs).2.symm
  · intro st x e st2 hs
    exact (Prod.mk.injEq _ _ _ _ ▸ hs).2.symm

/-- Witness for claim C2: the invariant holds of the fresh class state, and
deleting an absent key there fails leaving the state unchanged. -/
theorem c2_witness :
    MapInv Map.classInit ∧
      (Map.delItem Map.classInit [("x"), ("counter")]).2 = Map.classInit := by
  refine ⟨mapInv_classInit, ?_⟩
  have h := c2_failed_mutation_leaves_state_unchanged Map.classInit
    [("x"), ("counter")] mapInv_classInit
  exact h.1 PyError.keyError (Map.delItem Map.classInit [("x"), ("counter")]).2 rfl

/-- Counterexample to claim C3.  In scenario B the access through the
registers view returns a fresh nested register, but the maps `to_op()` is
not the claimed `[("update", ("name", "register"), "Ann")]`: the access
already queued an explicit `add` entry, and the `assign("Ann")` call raises
`TypeError` in the broken inherited `_check_type` classmethod before any
update is recorded. -/
theorem c3_counterexample :
    scenarioBRegister = .ok (.register { base := "", newValue := none }) ∧
    scenarioBAssign.1 =
      .error (.typeError ("_check_type() takes 1 positional argument but 2 were given")) ∧
    scenarioBAssign.2 = { base := "", newValue := none } ∧
    Map.toOp scenarioBState ≠
      .ok (some [DtOp.updateEntry (("name"), ("register"))
        (DtOp.registerOp ("Ann"))]) := by
  refine ⟨rfl, rfl, rfl, ?_⟩
  intro h
  have h2 : (some [DtOp.addEntry ((("name"), ("register")) : MKey)] :
      Option (List DtOp)) =
      some [DtOp.updateEntry (("name"), ("register")) (DtOp.registerOp ("Ann"))] :=
    Except.ok.inj h
  exact absurd h2 (by decide)

/-- Claim C3, amended.  Starting from a new empty `Map`, getting key
`("name", "register")` through the registers typed view records the key in
pending adds and stores a fresh nested register in pending updates; the
subsequent `assign("Ann")` raises `TypeError` (the inherited `_check_type`
classmethod receives the class in its sole parameter) leaving the register
unchanged, so the maps `to_op()` equals exactly
`[("add", ("name", "register"))]`. -/
theorem c3_scenarioB_toOp_is_add_entry :
    scenarioBRegister = .ok (.register { base := "", newValue := none }) ∧
    scenarioBAssign =
      (.error (.typeError ("_check_type() takes 1 positional argument but 2 were given")),
       { base := "", newValue := none }) ∧
    Map.toOp scenarioBState = .ok (some [DtOp.addEntry (("name"), ("register"))]) := by
  exact ⟨rfl, rfl, rfl⟩

/-- Claim C4.  The claim states that construction from a valid-shaped seed
succeeds and from an invalid one raises `TypeMismatch`.  The code does
neither: `Datatype.__init__` references the undefined name `new_value`
whenever a seed value is given, so python raises `NameError` before any
validation or coercion — for valid and invalid seeds alike.  Only a seedless
construction succeeds. -/
theorem c4_seeded_construction_raises_nameerror :
    Datatype.init (α := Int) (some 5) none =
      .error (.nameError ("name new_value is not defined")) ∧
    Datatype.init (α := String) (some ("bad")) none =
      .error (.nameError ("name new_value is not defined")) ∧
    Datatype.init (α := Int) none (some ("ctx")) = .ok (none, some ("ctx")) := by
  exact ⟨rfl, rfl, rfl⟩

/-- Claim C5.  The claim states counter linearity for sequences of
successful increments and decrements.  In the code no increment or decrement
ever succeeds: `Counter._check_type` is a classmethod whose sole parameter
receives the class, so `increment(5)` raises `TypeError`, the accumulator
stays `0`, `to_op()` stays `None` (not `3` after the scenario-A sequence),
and `dirty_value` on a fresh counter raises `TypeError` because the base
value defaults to `None`, not `0`. -/
theorem c5_counter_mutations_always_raise :
    c5AfterIncrement.1 =
      .error (.typeError ("_check_type() takes 1 positional argument but 2 were given")) ∧
    c5AfterSequence.1 =
      .error (.typeError ("_check_type() takes 1 positional argument but 2 were given")) ∧
    c5AfterSequence.2 = Counter.new ∧
    Counter.toOp c5AfterSequence.2 = none ∧
    Counter.dirtyValue Counter.new =
      .error (.typeError ("unsupported operand types for +: NoneType and int")) := by
  exact ⟨rfl, rfl, rfl, rfl, rfl⟩

/-- Claim C6.  The claim states the dirty-value formula and that adds win
over removes after `add("e")`, `discard("e")`, `add("e")`.  In the code
`Set._check_element` is a classmethod whose sole parameter receives the
class, so every `add` and `discard` raises `TypeError`; the pending sets
never change and after the attempted sequence `dirty_value` does not contain
`"e"`. -/
theorem c6_set_mutations_always_raise :
    c6Step1.1 =
      .error (.typeError ("_check_element() takes 1 positional argument but 2 were given")) ∧
    c6Step2.1 =
      .error (.typeError ("_check_element() takes 1 positional argument but 2 were given")) ∧
    c6Step3.2 = Set.classInit ∧
    Set.dirtyMem c6Step3.2 ("e") = false ∧
    Set.toOp c6Step3.2 = none := by
  exact ⟨rfl, rfl, rfl, rfl, rfl⟩

/-- Claim C7.  The claim states that `Map` delete succeeds for every
well-formed key, including keys absent from the base value.  The code
disagrees: `__delitem__` runs `del self._updates[key]` unconditionally, so
deleting a key that has no pending update — for example any key on a fresh
map — raises `KeyError`, and the key is not recorded in pending removes. -/
theorem c7_delete_absent_key_raises_keyerror :
    Map.delItem Map.classInit [("a"), ("counter")] = (.error .keyError, Map.classInit) ∧
    (Map.delItem Map.classInit [("a"), ("counter")]).2.removes.contains
      (("a"), ("counter")) = false := by
  exact ⟨rfl, rfl⟩

/-- Claim C8.  The claim states that `context()` returns a copy of the
context or absent when none is present, and never fails.  The code returns
`self._context[:]` unconditionally: with a stored context the slice yields
an equal copy, but with no context it slices `None` and raises
`TypeError`. -/
theorem c8_context_absent_raises_typeerror :
    Datatype.contextProp (some ("opaque")) = .ok ("opaque") ∧
    Datatype.contextProp none =
      .error (.typeError ("NoneType object is not subscriptable")) := by
  exact ⟨rfl, rfl⟩

/-- Claim C9.  On every datatype the `to_op` method assigns no attribute, so
in the state-passing embedding it returns the state unchanged, and two
consecutive calls with no intervening mutation return equal results. -/
theorem c9_toOp_pure_and_idempotent (c : CounterState) (f : FlagState)
    (r : RegisterState) (st : SetState) (m : MapState) :
    (Counter.toOpS c).2 = c ∧
      (Counter.toOpS ((Counter.toOpS c).2)).1 = (Counter.toOpS c).1 ∧
    (Flag.toOpS f).2 = f ∧ (Flag.toOpS ((Flag.toOpS f).2)).1 = (Flag.toOpS f).1 ∧
    (Register.toOpS r).2 = r ∧
      (Register.toOpS ((Register.toOpS r).2)).1 = (Register.toOpS r).1 ∧
    (Set.toOpS st).2 = st ∧ (Set.toOpS ((Set.toOpS st).2)).1 = (Set.toOpS st).1 ∧
    (Map.toOpS m).2 = m ∧ (Map.toOpS ((Map.toOpS m).2)).1 = (Map.toOpS m).1 := by
  exact ⟨rfl, rfl, rfl, rfl, rfl, rfl, rfl, rfl, rfl, rfl⟩

/-- Claim C10.  The claim states that iterating a typed view calls the
parent maps getter for each matching base-value key, clearing its pending
remove and yielding the nested instance.  The code cannot do so: the
iteration first evaluates the parent maps `value` property, which calls
each nested pure value as a function and raises `TypeError` as soon as the
base value is non-empty, before any getter call — no pending remove is
cleared and nothing is yielded.  Moreover no reachable map has a non-empty
base value, because seeding raises `NameError` in `Datatype.__init__`. -/
theorem c10_typed_view_iteration_raises_on_nonempty_base :
    TypedMapView.iter c10BaseState ("counter") =
      (.error (.typeError ("object is not callable")), c10BaseState) ∧
    c10BaseState.removes.contains (("a"), ("counter")) = true ∧
    (TypedMapView.iter c10BaseState ("counter")).2.removes.contains
      (("a"), ("counter")) = true ∧
    Datatype.init (α := List (MKey × Int)) (some [((("a"), ("counter")), 5)]) none =
      .error (.nameError ("name new_value is not defined")) := by
  exact ⟨rfl, rfl, rfl, rfl⟩

end Riak
